import Mathlib

/-!
Verification of `src/backend/src/dataset_generation/piece_image_generator.py`
(Chess-piece-recognition repository).

The script has two cores:
  * `split_board`: converts a board image to RGBA, checks the numpy array
    shape is (400, 400, 4), then reshapes (8,50,8,50,4) → swapaxes(1,2) →
    (64,50,50,4) to obtain 64 square tiles;
  * `generate_dataset`: a loop that, per iteration, draws a class path
    (over the 13 `DATA_PATHS`), draws a background empty-square path, and —
    when the class is a piece — draws a piece-style set, then composites the
    piece sprite onto the background with `img.paste(piece, mask=piece)`.

We embed the pixel-level computations as functions `Nat → Nat → Nat → Nat`
(row, column, channel ↦ value) together with explicit shape data, numpy
reshaping as index arithmetic on the flat C-order buffer, and the
numpy `Generator` as a cursor into an abstract draw stream.
-/

namespace PieceImageGenerator

/-! ### PIL image model

`Image.convert('RGBA')` always yields a 4-channel image; `np.asarray` of an
RGBA PIL image has shape (height, width, 4).  We model the three PIL modes
the script can meet and the conversion to RGBA. -/

/-- PIL image modes relevant to the script: grayscale, RGB, RGBA. -/
inductive PILMode where
  | L
  | RGB
  | RGBA
deriving DecidableEq, Repr

/-- Number of color channels of a PIL mode (the last axis of `np.asarray`). -/
def PILMode.channels : PILMode → Nat
  | .L => 1
  | .RGB => 3
  | .RGBA => 4

/-- A PIL image: pixel raster with explicit height, width and mode.
`data i j ch` is the value of channel `ch` of the pixel at row `i`,
column `j` (0-based, as in `np.asarray`). -/
structure PILImage where
  height : Nat
  width : Nat
  mode : PILMode
  data : Nat → Nat → Nat → Nat

/-- `img.convert('RGBA')`: the result always has 4 channels; grayscale is
replicated into R,G,B and an opaque alpha of 255 is appended where the
source had no alpha. -/
def convertRGBA (img : PILImage) : PILImage :=
  { img with
    mode := .RGBA
    data := fun i j ch =>
      match img.mode with
      | .RGBA => img.data i j ch
      | .RGB => if ch = 3 then 255 else img.data i j ch
      | .L => if ch = 3 then 255 else img.data i j 0 }

/-- Shape of `np.asarray img`: `(height, width, channels)`. -/
def npShape (img : PILImage) : Nat × Nat × Nat :=
  (img.height, img.width, img.mode.channels)

/-! ### numpy reshaping of the board, as flat-buffer index arithmetic

A (400,400,4) array in C order stores pixel (i,j,ch) at flat index
`(i*400 + j)*4 + ch`.  `reshape` never moves data, `swapaxes` permutes
index tuples. -/

/-- Flat C-order buffer of a (400,400,4) array: element `n` of the buffer,
read back through the (row, column, channel) indexing. -/
def flat400 (data : Nat → Nat → Nat → Nat) (n : Nat) : Nat :=
  data (n / 1600) (n % 1600 / 4) (n % 4)

/-- `image_arr.reshape(8,50,8,50,4)`: C-order index arithmetic on the flat
buffer. -/
def reshape85085 (buf : Nat → Nat) (a b c d e : Nat) : Nat :=
  buf ((((a * 50 + b) * 8 + c) * 50 + d) * 4 + e)

/-- `.swapaxes(1,2)`: shape (8,50,8,50,4) becomes (8,8,50,50,4). -/
def swapaxes12 (x : Nat → Nat → Nat → Nat → Nat → Nat)
    (a c b d e : Nat) : Nat :=
  x a b c d e

/-- `.reshape(64,50,50,4)`: merge the two leading grid axes in C order. -/
def reshape64 (x : Nat → Nat → Nat → Nat → Nat → Nat)
    (k r c ch : Nat) : Nat :=
  x (k / 8) (k % 8) r c ch

/-- Tile `k` of the reshaped board, exactly as the script computes it:
`image_arr.reshape(8,50,8,50,4).swapaxes(1,2).reshape(64,50,50,4)[k]`. -/
def boardTile (data : Nat → Nat → Nat → Nat) (k : Nat) :
    Nat → Nat → Nat → Nat :=
  fun r c ch =>
    reshape64 (fun a c' b d e => swapaxes12 (reshape85085 (flat400 data)) a c' b d e) k r c ch

/-- The validation error message raised by `split_board`. -/
def shapeErrorMsg : String :=
  "Image does not have the correct shape (400x400 pixels, RGBA)."

/-- `split_board`: convert the input to RGBA, check the array shape is
(400,400,4), then split into the list of 64 tiles. -/
def split_board (board_img : PILImage) :
    Except String (List (Nat → Nat → Nat → Nat)) :=
  let rgba := convertRGBA board_img
  if npShape rgba = (400, 400, 4) then
    .ok ((List.range 64).map (fun k => boardTile rgba.data k))
  else
    .error shapeErrorMsg

/-- `Except.isOk` for our result type. -/
def exIsOk {ε α : Type} : Except ε α → Bool
  | .ok _ => true
  | .error _ => false

/-- A concrete 400×400 RGBA test board whose pixel values encode their own
coordinates. -/
def exBoard : PILImage :=
  { height := 400, width := 400, mode := .RGBA
    data := fun i j ch => (i * 400 + j) * 4 + ch }

/-! ### PIL `paste` with an RGBA mask

`img.paste(piece, mask=piece)` uses the alpha band of the RGBA mask.  Per
Pillow's C core, each channel is blended as
`MULDIV255(bg, 255 - m) + MULDIV255(sp, m)` where
`MULDIV255(a, b) = SHIFTFORDIV255(a*b + 128)` and
`SHIFTFORDIV255(t) = ((t >> 8) + t) >> 8`; mask 255 copies the pasted
pixel, mask 0 keeps the background, intermediate values mix. -/

/-- Pillow's exact `MULDIV255` rounding: `round(v * m / 255)`. -/
def muldiv255 (v m : Nat) : Nat :=
  ((v * m + 128) / 256 + (v * m + 128)) / 256

/-- Pillow's per-channel `BLEND` of background and pasted values under
mask value `m`. -/
def blendChannel (m bg sp : Nat) : Nat :=
  muldiv255 bg (255 - m) + muldiv255 sp m

/-- `img.paste(piece, mask=piece)` on same-size rasters: every channel of
every pixel is blended under the sprite's alpha channel (channel 3). -/
def pasteMask (bg sp : Nat → Nat → Nat → Nat) : Nat → Nat → Nat → Nat :=
  fun r c ch => blendChannel (sp r c 3) (bg r c ch) (sp r c ch)

/-! ### The pseudo-random generator

`rng = np.random.default_rng(seed=35)` is a module-level generator whose
internal position advances with every draw.  We model it as a cursor into
an abstract draw stream `seq` (determined by the seed); each `rng.choice`
consumes one draw and selects uniformly by reducing the raw draw modulo
the list length. -/

structure Rng where
  seq : Nat → Nat
  cursor : Nat

/-- `rng.choice(lst)`: select an element with one uniform draw and advance
the generator. -/
def Rng.choice (r : Rng) (l : List String) : String × Rng :=
  (l.getD (r.seq r.cursor % l.length) "", { r with cursor := r.cursor + 1 })

/-- The generator of a fresh process start: seeded stream, cursor at 0. -/
def initRng (seed : Nat → Nat) : Rng := { seq := seed, cursor := 0 }

/-! ### Module-level constants derived from the filesystem -/

/-- `PIECE_NAMES`: the file names of `pieces/1` with their 4-character
`".png"` suffix stripped, with the empty-square class `'e'` inserted at
index 0. -/
def PIECE_NAMES (listing : List String) : List String :=
  "e" :: listing.map (fun s => s.dropRight 4)

/-- `DATA_PATHS`: one output directory per class name. -/
def DATA_PATHS (dataDir : String) (listing : List String) : List String :=
  (PIECE_NAMES listing).map (fun name => dataDir ++ "/" ++ name)

/-- One saved image file: its path and its pixel content. -/
structure Write where
  path : String
  image : Nat → Nat → Nat → Nat

/-- The fixed inputs of a dataset-generation run: the 13 class output
directories, the globbed empty-square paths, the globbed piece-set
directories, and the file contents behind every path. -/
structure Config where
  dataPaths : List String
  emptySquares : List String
  pieceSetsGlob : List String
  corpus : String → PILImage

/-! ### `generate_dataset` -/

/-- The `ValueError` message for an unrecognized mode (the run of spaces
comes from the backslash line continuation inside the Python string
literal). -/
def modeErrorMsg (mode : String) : String :=
  mode ++ " is not a valid option for the mode parameter.                          Use train, test, or all instead."

/-- The mode dispatch of `generate_dataset`: `'train' ↦ slice(0,16)`,
`'test' ↦ slice(16,32)`, `'all' ↦ slice(0,32)`, anything else raises a
`ValueError`. -/
def modeSlice (mode : String) : Except String (Nat × Nat) :=
  if mode = "train" then .ok (0, 16)
  else if mode = "test" then .ok (16, 32)
  else if mode = "all" then .ok (0, 32)
  else .error (modeErrorMsg mode)

/-- Python's `l[a:b]` for `0 ≤ a ≤ b`. -/
def pySlice (l : List String) (a b : Nat) : List String :=
  (l.drop a).take (b - a)

/-- Lexicographic order on code-point sequences, as Python compares
strings. -/
def lexLeNat : List Nat → List Nat → Bool
  | [], _ => true
  | _ :: _, [] => false
  | x :: xs, y :: ys => if x < y then true else if y < x then false else lexLeNat xs ys

/-- Python's `<=` on strings: lexicographic by unicode code point. -/
def strLe (a b : String) : Bool :=
  lexLeNat (a.data.map Char.toNat) (b.data.map Char.toNat)

/-- Python's `sorted` on strings: a stable sort by code-point order
(insertion sort agrees with it on every list of distinct strings). -/
def sortStrings (l : List String) : List String :=
  l.insertionSort (fun a b => strLe a b = true)

/-- The mode-restricted piece-set pool:
`sorted(piece_sets)[range_slice]`. -/
def pieceSetPool (sets : List String) (mode : String) : List String :=
  match modeSlice mode with
  | .ok (a, b) => pySlice (sortStrings sets) a b
  | .error _ => []

/-- Python's `int()` on a rational number: truncation toward zero. -/
def pyInt (q : ℚ) : ℤ :=
  if 0 ≤ q then ⌊q⌋ else ⌈q⌉

/-- One iteration of the `generate_dataset` loop (index `i`): draw a class
path over `DATA_PATHS`, build the save path `f"{i}.png"`, draw a
background empty-square path, open and convert it; if the class path ends
in `'e'` save it as is, otherwise draw a piece set, open the sprite
`piece_path[-3:] + ".png"` and paste it with itself as mask. -/
def generateOne (cfg : Config) (pieceSets : List String) (i : Nat)
    (r0 : Rng) : Write × Rng :=
  let (piece_path, r1) := r0.choice cfg.dataPaths
  let save_path := piece_path ++ "/" ++ toString i ++ ".png"
  let (empty_square, r2) := r1.choice cfg.emptySquares
  let img := convertRGBA (cfg.corpus empty_square)
  if piece_path.takeRight 1 = "e" then
    ({ path := save_path, image := img.data }, r2)
  else
    let (piece_set, r3) := r2.choice pieceSets
    let piece_name := piece_path.takeRight 3
    let piece := convertRGBA (cfg.corpus (piece_set ++ "/" ++ piece_name ++ ".png"))
    ({ path := save_path, image := pasteMask img.data piece.data }, r3)

/-- The loop `for i in range(int(n_data_points))`, threading the shared
generator; returns the writes performed and the final generator state. -/
def genLoop (cfg : Config) (pieceSets : List String) :
    Nat → Nat → Rng → List Write × Rng
  | _, 0, r => ([], r)
  | i, fuel + 1, r =>
      let (w, r') := generateOne cfg pieceSets i r
      let (ws, r'') := genLoop cfg pieceSets (i + 1) fuel r'
      (w :: ws, r'')

/-- `generate_dataset(n_data_points, mode)`: dispatch on the mode (raising
on an unrecognized one before any generation work), restrict the sorted
piece sets to the mode's slice, then run the loop. -/
def generate_dataset (cfg : Config) (n_data_points : ℚ) (mode : String)
    (r : Rng) : Except String (List Write × Rng) :=
  match modeSlice mode with
  | .error e => .error e
  | .ok (a, b) =>
      let piece_sets := pySlice (sortStrings cfg.pieceSetsGlob) a b
      .ok (genLoop cfg piece_sets 0 (pyInt n_data_points).toNat r)

/-- The file paths written by a call of `generate_dataset` (empty when the
call raises). -/
def runWrites (cfg : Config) (n : ℚ) (mode : String) (r : Rng) : List String :=
  match generate_dataset cfg n mode r with
  | .ok (ws, _) => ws.map Write.path
  | .error _ => []

/-- The module-level generator state after a call of `generate_dataset`
(unchanged when the call raises). -/
def runRng (cfg : Config) (n : ℚ) (mode : String) (r : Rng) : Rng :=
  match generate_dataset cfg n mode r with
  | .ok (_, r') => r'
  | .error _ => r

/-! ### Big-step run relations (for the determinism claims) -/

/-- Big-step relation of the generation loop: from iteration index `i`
with `fuel` iterations left and generator `r`, the loop produces the given
writes and final generator. -/
inductive GenRun (cfg : Config) (pieceSets : List String) :
    Nat → Nat → Rng → List Write × Rng → Prop where
  | done (i : Nat) (r : Rng) : GenRun cfg pieceSets i 0 r ([], r)
  | step (i fuel : Nat) (r : Rng) (w : Write) (r' : Rng)
      (rest : List Write) (r'' : Rng) :
      generateOne cfg pieceSets i r = (w, r') →
      GenRun cfg pieceSets (i + 1) fuel r' (rest, r'') →
      GenRun cfg pieceSets i (fuel + 1) r (w :: rest, r'')

/-- Big-step relation of one whole dataset-generation run from a fresh
process start (fixed seed stream, cursor 0). -/
inductive DatasetRun (cfg : Config) (n : ℚ) (mode : String)
    (seed : Nat → Nat) : List Write × Rng → Prop where
  | mk (a b : Nat) (out : List Write × Rng) :
      modeSlice mode = .ok (a, b) →
      GenRun cfg (pySlice (sortStrings cfg.pieceSetsGlob) a b) 0
        (pyInt n).toNat (initRng seed) out →
      DatasetRun cfg n mode seed out

/-! ### Concrete fixtures for counterexamples and witnesses -/

/-- A 400×400 3-channel (RGB) board image. -/
def exRGBBoard : PILImage :=
  { height := 400, width := 400, mode := .RGB, data := fun _ _ _ => 0 }

/-- A listing of `pieces/1` with the 12 piece-code file names. -/
def listing12 : List String :=
  ["b_b.png", "b_w.png", "k_b.png", "k_w.png", "n_b.png", "n_w.png",
   "p_b.png", "p_w.png", "q_b.png", "q_w.png", "r_b.png", "r_w.png"]

/-- A uniform 50×50 RGBA square used as file content in the fixtures. -/
def whiteSquare : PILImage :=
  { height := 50, width := 50, mode := .RGBA, data := fun _ _ _ => 200 }

/-- A concrete run configuration. -/
def cfgEx : Config :=
  { dataPaths := DATA_PATHS "data" listing12
    emptySquares := ["empty_squares/1/1.png"]
    pieceSetsGlob := ["pieces/1", "pieces/2"]
    corpus := fun _ => whiteSquare }

/-- A concrete generator whose draw stream is the identity. -/
def rngId : Rng := { seq := fun n => n, cursor := 0 }

/-- Modelled from the spec (comparison definition for the refinement
claim): the "first half of the sorted style sets". -/
def specFirstHalf (l : List String) : List String :=
  l.take (l.length / 2)

/-- Modelled from the spec (comparison definition for the refinement
claim): the "second half of the sorted style sets". -/
def specSecondHalf (l : List String) : List String :=
  l.drop (l.length / 2)

/-- A collection of 32 distinct piece-style-set paths. -/
def sets32 : List String :=
  ["pieces/01", "pieces/02", "pieces/03", "pieces/04", "pieces/05",
   "pieces/06", "pieces/07", "pieces/08", "pieces/09", "pieces/10",
   "pieces/11", "pieces/12", "pieces/13", "pieces/14", "pieces/15",
   "pieces/16", "pieces/17", "pieces/18", "pieces/19", "pieces/20",
   "pieces/21", "pieces/22", "pieces/23", "pieces/24", "pieces/25",
   "pieces/26", "pieces/27", "pieces/28", "pieces/29", "pieces/30",
   "pieces/31", "pieces/32"]

/-- A sprite whose every pixel has value 255 at 50% alpha (mask 128). -/
def spriteHalf : Nat → Nat → Nat → Nat :=
  fun _ _ ch => if ch = 3 then 128 else 255

/-- An all-black, fully opaque background square. -/
def bgBlack : Nat → Nat → Nat → Nat :=
  fun _ _ _ => 0


/-! ### Helper lemmas about the tiling arithmetic -/

theorem convertRGBA_data_of_rgba (img : PILImage) (hm : img.mode = .RGBA)
    (i j ch : Nat) : (convertRGBA img).data i j ch = img.data i j ch := by
  simp [convertRGBA, hm]

theorem boardTile_eq (data : Nat → Nat → Nat → Nat) (k r c ch : Nat)
    (hk : k < 64) (hr : r < 50) (hc : c < 50) (hch : ch < 4) :
    boardTile data k r c ch = data (k / 8 * 50 + r) (k % 8 * 50 + c) ch := by
  simp only [boardTile, reshape64, swapaxes12, reshape85085, flat400]
  have key : ∀ a b e : Nat, a = k / 8 * 50 + r → b = k % 8 * 50 + c → e = ch →
      data a b e = data (k / 8 * 50 + r) (k % 8 * 50 + c) ch := by
    intro a b e h1 h2 h3
    rw [h1, h2, h3]
  exact key _ _ _ (by omega) (by omega) (by omega)

theorem boardTile_reconstruct (data : Nat → Nat → Nat → Nat) (R C ch : Nat)
    (hR : R < 400) (hC : C < 400) (hch : ch < 4) :
    boardTile data (R / 50 * 8 + C / 50) (R % 50) (C % 50) ch = data R C ch := by
  rw [boardTile_eq data _ _ _ _ (by omega) (by omega) (by omega) hch]
  have key : ∀ a b : Nat, a = R → b = C → data a b ch = data R C ch := by
    intro a b h1 h2
    rw [h1, h2]
  exact key _ _ (by omega) (by omega)

/-! ### C1 -/

/-- C1: on a 400×400 4-channel board, `split_board` returns exactly 64
tiles; tile `k` is the 50×50 sub-raster at pixel rows `(k/8)*50 ..` and
columns `(k%8)*50 ..` of the board; the tiles reassemble the board
pixel-for-pixel in row-major grid order; distinct tiles cover disjoint
pixel regions. -/
theorem split_board_partitions (img : PILImage)
    (hh : img.height = 400) (hw : img.width = 400) (hm : img.mode = .RGBA) :
    split_board img =
      .ok ((List.range 64).map (fun k => boardTile (convertRGBA img).data k))
    ∧ ((List.range 64).map (fun k => boardTile (convertRGBA img).data k)).length = 64
    ∧ (∀ k r c ch, k < 64 → r < 50 → c < 50 → ch < 4 →
        boardTile (convertRGBA img).data k r c ch
          = img.data (k / 8 * 50 + r) (k % 8 * 50 + c) ch)
    ∧ (∀ R C ch, R < 400 → C < 400 → ch < 4 →
        boardTile (convertRGBA img).data (R / 50 * 8 + C / 50) (R % 50) (C % 50) ch
          = img.data R C ch)
    ∧ (∀ k k' r r' c c', k < 64 → k' < 64 → r < 50 → r' < 50 → c < 50 → c' < 50 →
        k ≠ k' →
        ¬(k / 8 * 50 + r = k' / 8 * 50 + r' ∧ k % 8 * 50 + c = k' % 8 * 50 + c')) := by
  refine ⟨?_, by simp, ?_, ?_, ?_⟩
  · simp [split_board, npShape, convertRGBA, PILMode.channels, hh, hw]
  · intro k r c ch hk hr hc hch
    rw [boardTile_eq _ _ _ _ _ hk hr hc hch, convertRGBA_data_of_rgba img hm]
  · intro R C ch hR hC hch
    rw [boardTile_reconstruct _ _ _ _ hR hC hch, convertRGBA_data_of_rgba img hm]
  · intro k k' r r' c c' hk hk' hr hr' hc hc' hne
    omega

/-- Witness for C1: the theorem applied to the concrete coordinate-encoding
board `exBoard`. -/
theorem split_board_partitions_witness :
    split_board exBoard =
      .ok ((List.range 64).map (fun k => boardTile (convertRGBA exBoard).data k))
    ∧ ((List.range 64).map (fun k => boardTile (convertRGBA exBoard).data k)).length = 64
    ∧ (∀ k r c ch, k < 64 → r < 50 → c < 50 → ch < 4 →
        boardTile (convertRGBA exBoard).data k r c ch
          = exBoard.data (k / 8 * 50 + r) (k % 8 * 50 + c) ch)
    ∧ (∀ R C ch, R < 400 → C < 400 → ch < 4 →
        boardTile (convertRGBA exBoard).data (R / 50 * 8 + C / 50) (R % 50) (C % 50) ch
          = exBoard.data R C ch)
    ∧ (∀ k k' r r' c c', k < 64 → k' < 64 → r < 50 → r' < 50 → c < 50 → c' < 50 →
        k ≠ k' →
        ¬(k / 8 * 50 + r = k' / 8 * 50 + r' ∧ k % 8 * 50 + c = k' % 8 * 50 + c')) :=
  split_board_partitions exBoard rfl rfl rfl

/-! ### C3 -/

/-- C3 counterexample: a 400×400 image with 3 channels (RGB) — a wrong
channel count — does not make `split_board` fail: the function converts to
RGBA before checking the shape, so the split succeeds. -/
theorem split_board_rgb_succeeds :
    exRGBBoard.mode.channels = 3 ∧ exIsOk (split_board exRGBBoard) = true :=
  ⟨rfl, rfl⟩

/-- C3 (amended): `split_board` fails with the validation error naming the
expected shape if and only if the input does not have exactly 400×400
pixel dimensions; the channel count never causes a failure because the
input is converted to RGBA (4 channels) before the shape check. -/
theorem split_board_error_iff (img : PILImage) :
    split_board img = .error shapeErrorMsg
      ↔ ¬(img.height = 400 ∧ img.width = 400) := by
  have hshape : npShape (convertRGBA img) = (img.height, img.width, 4) := rfl
  simp only [split_board, hshape]
  constructor
  · intro h
    intro hc
    rw [if_pos (by rw [hc.1, hc.2])] at h
    exact Except.noConfusion h
  · intro h
    rw [if_neg]
    intro hc
    exact h ⟨congrArg Prod.fst hc, congrArg (fun p => p.2.1) hc⟩

/-! ### C4 -/

/-- C4 counterexample: the mode string `"mixed"` is not recognized — the
claim says `"all"`/`"mixed"` select the entire style set, but the code
raises the configuration `ValueError` on `"mixed"`. -/
theorem generate_dataset_mixed_errors :
    generate_dataset cfgEx 1 "mixed" rngId = .error (modeErrorMsg "mixed") :=
  rfl

/-- C4 (amended): `generate_dataset` recognizes exactly the mode strings
`"train"`, `"test"` and `"all"` (not `"mixed"`); for every other mode it
fails with the configuration error before any sampling work and performs
zero filesystem writes, leaving the generator untouched. -/
theorem generate_dataset_mode_check (cfg : Config) (n : ℚ) (r : Rng)
    (mode : String) :
    (generate_dataset cfg n mode r = .error (modeErrorMsg mode)
      ↔ (mode ≠ "train" ∧ mode ≠ "test" ∧ mode ≠ "all"))
    ∧ ((mode ≠ "train" ∧ mode ≠ "test" ∧ mode ≠ "all") →
        runWrites cfg n mode r = [] ∧ runRng cfg n mode r = r) := by
  by_cases h1 : mode = "train"
  · subst h1
    refine ⟨⟨fun hc => by simp [generate_dataset, modeSlice] at hc, ?_⟩, ?_⟩
    · intro hc
      exact absurd rfl hc.1
    · intro hc
      exact absurd rfl hc.1
  · by_cases h2 : mode = "test"
    · subst h2
      refine ⟨⟨fun hc => by simp [generate_dataset, modeSlice] at hc, ?_⟩, ?_⟩
      · intro hc
        exact absurd rfl hc.2.1
      · intro hc
        exact absurd rfl hc.2.1
    · by_cases h3 : mode = "all"
      · subst h3
        refine ⟨⟨fun hc => by simp [generate_dataset, modeSlice] at hc, ?_⟩, ?_⟩
        · intro hc
          exact absurd rfl hc.2.2
        · intro hc
          exact absurd rfl hc.2.2
      · have herr : generate_dataset cfg n mode r = .error (modeErrorMsg mode) := by
          simp [generate_dataset, modeSlice, h1, h2, h3]
        refine ⟨⟨fun _ => ⟨h1, h2, h3⟩, fun _ => herr⟩, fun _ => ⟨?_, ?_⟩⟩
        · simp [runWrites, herr]
        · simp [runRng, herr]

/-- Witness for C4 (amended), at the concrete unrecognized mode
`"mixed"`. -/
theorem generate_dataset_mode_check_witness :
    (generate_dataset cfgEx 1 "mixed" rngId = .error (modeErrorMsg "mixed")
      ↔ ("mixed" ≠ "train" ∧ "mixed" ≠ "test" ∧ "mixed" ≠ "all"))
    ∧ (runWrites cfgEx 1 "mixed" rngId = [] ∧ runRng cfgEx 1 "mixed" rngId = rngId) :=
  ⟨(generate_dataset_mode_check cfgEx 1 rngId "mixed").1,
   (generate_dataset_mode_check cfgEx 1 rngId "mixed").2
     (by refine ⟨?_, ?_, ?_⟩ <;> decide)⟩

/-! ### C5 -/

/-- C5 counterexample: for the two-element style-set collection
`["a", "b"]`, the "train" pool computed by the code (`sorted[0:16]`) is
the whole collection, not the first half of the sorted sets. -/
theorem trainPool_ne_firstHalf :
    pieceSetPool ["a", "b"] "train" = ["a", "b"]
    ∧ specFirstHalf (sortStrings ["a", "b"]) = ["a"]
    ∧ pieceSetPool ["a", "b"] "train" ≠ specFirstHalf (sortStrings ["a", "b"]) := by
  refine ⟨?_, ?_, ?_⟩ <;> decide

/-- C5 (amended): the pools are the fixed slices `sorted[0:16]`,
`sorted[16:32]`, `sorted[0:32]` of the sorted style sets; "train" and
"test" are always disjoint (for distinct paths), "all" is their
duplicate-free concatenation, and only when exactly 32 style sets are
available are the pools the first half, the second half, and the entire
collection. -/
theorem piece_set_pools (sets : List String) (hnd : sets.Nodup) :
    pieceSetPool sets "train" = (sortStrings sets).take 16
    ∧ pieceSetPool sets "test" = ((sortStrings sets).drop 16).take 16
    ∧ pieceSetPool sets "all" = (sortStrings sets).take 32
    ∧ List.Disjoint (pieceSetPool sets "train") (pieceSetPool sets "test")
    ∧ pieceSetPool sets "all" = pieceSetPool sets "train" ++ pieceSetPool sets "test"
    ∧ (pieceSetPool sets "all").Nodup
    ∧ (sets.length = 32 →
        pieceSetPool sets "train" = specFirstHalf (sortStrings sets)
        ∧ pieceSetPool sets "test" = specSecondHalf (sortStrings sets)
        ∧ pieceSetPool sets "all" = sortStrings sets) := by
  have hperm := List.perm_insertionSort (fun a b => strLe a b = true) sets
  have hsortnd : (sortStrings sets).Nodup := (hperm.nodup_iff).mpr hnd
  have hlen : (sortStrings sets).length = sets.length := hperm.length_eq
  have htrain : pieceSetPool sets "train" = (sortStrings sets).take 16 := by
    simp [pieceSetPool, modeSlice, pySlice]
  have htest : pieceSetPool sets "test" = ((sortStrings sets).drop 16).take 16 := by
    simp [pieceSetPool, modeSlice, pySlice]
  have hall : pieceSetPool sets "all" = (sortStrings sets).take 32 := by
    simp [pieceSetPool, modeSlice, pySlice]
  refine ⟨htrain, htest, hall, ?_, ?_, ?_, ?_⟩
  · rw [htrain, htest]
    intro x hx hx'
    exact (List.disjoint_take_drop hsortnd (le_refl 16)) hx
      (List.take_subset _ _ hx')
  · rw [htrain, htest, hall]
    have := List.take_add (sortStrings sets) 16 16
    simpa using this
  · rw [hall]
    exact hsortnd.sublist (List.take_sublist _ _)
  · intro h32
    have hslen : (sortStrings sets).length = 32 := by rw [hlen, h32]
    refine ⟨?_, ?_, ?_⟩
    · rw [htrain, specFirstHalf, hslen]
    · rw [htest, specSecondHalf, hslen]
      apply List.take_of_length_le
      rw [List.length_drop, hslen]
    · rw [hall]
      apply List.take_of_length_le
      rw [hslen]

/-- Witness for C5 (amended): the theorem applied to the concrete
32-element collection `sets32`. -/
theorem piece_set_pools_witness :
    pieceSetPool sets32 "train" = (sortStrings sets32).take 16
    ∧ pieceSetPool sets32 "test" = ((sortStrings sets32).drop 16).take 16
    ∧ pieceSetPool sets32 "all" = (sortStrings sets32).take 32
    ∧ List.Disjoint (pieceSetPool sets32 "train") (pieceSetPool sets32 "test")
    ∧ pieceSetPool sets32 "all" = pieceSetPool sets32 "train" ++ pieceSetPool sets32 "test"
    ∧ (pieceSetPool sets32 "all").Nodup
    ∧ (sets32.length = 32 →
        pieceSetPool sets32 "train" = specFirstHalf (sortStrings sets32)
        ∧ pieceSetPool sets32 "test" = specSecondHalf (sortStrings sets32)
        ∧ pieceSetPool sets32 "all" = sortStrings sets32) :=
  piece_set_pools sets32 (by decide)

/-! ### C6 -/

/-- C6 counterexample: a concrete `"empty"` iteration advances the shared
generator by exactly 2 draws — not the 3 draws (board id, square id,
decider value) the claim requires — so no iteration makes five or three
draws in the claimed order. -/
theorem iteration_draw_count :
    (generateOne cfgEx ["pieces/1", "pieces/2"] 0 rngId).1.path = "data/e/0.png"
    ∧ (generateOne cfgEx ["pieces/1", "pieces/2"] 0 rngId).2.cursor = rngId.cursor + 2
    ∧ rngId.cursor + 2 ≠ rngId.cursor + 3 := by
  refine ⟨rfl, rfl, by decide⟩

/-- C6 (amended): every iteration advances the generator through a fixed,
globally-ordered draw sequence, but it is: one class/label draw over the
13 class paths (serving at once as decider and piece identity), then one
background draw over all cached empty squares (selecting board style and
square position together), then — only in the piece case — one
piece-style-set draw: three draws in a piece iteration, two in an empty
one. -/
theorem generateOne_draw_order (cfg : Config) (pieceSets : List String)
    (i : Nat) (r : Rng) :
    ((cfg.dataPaths.getD (r.seq r.cursor % cfg.dataPaths.length) "").takeRight 1 = "e" →
      generateOne cfg pieceSets i r =
        ({ path := (cfg.dataPaths.getD (r.seq r.cursor % cfg.dataPaths.length) "")
              ++ "/" ++ toString i ++ ".png"
           image := (convertRGBA (cfg.corpus (cfg.emptySquares.getD
              (r.seq (r.cursor + 1) % cfg.emptySquares.length) ""))).data },
         { r with cursor := r.cursor + 2 }))
    ∧ ((cfg.dataPaths.getD (r.seq r.cursor % cfg.dataPaths.length) "").takeRight 1 ≠ "e" →
      generateOne cfg pieceSets i r =
        ({ path := (cfg.dataPaths.getD (r.seq r.cursor % cfg.dataPaths.length) "")
              ++ "/" ++ toString i ++ ".png"
           image := pasteMask
              (convertRGBA (cfg.corpus (cfg.emptySquares.getD
                (r.seq (r.cursor + 1) % cfg.emptySquares.length) ""))).data
              (convertRGBA (cfg.corpus
                (pieceSets.getD (r.seq (r.cursor + 2) % pieceSets.length) ""
                  ++ "/"
                  ++ (cfg.dataPaths.getD (r.seq r.cursor % cfg.dataPaths.length) "").takeRight 3
                  ++ ".png"))).data },
         { r with cursor := r.cursor + 3 })) := by
  constructor
  · intro h
    simp only [generateOne, Rng.choice, if_pos h]
  · intro h
    simp only [generateOne, Rng.choice, if_neg h]

/-- Witness for C6 (amended): the empty-case clause evaluated on the
concrete configuration (class draw 0 selects `"data/e"`). -/
theorem generateOne_draw_order_witness :
    generateOne cfgEx ["pieces/1", "pieces/2"] 0 rngId =
      ({ path := (cfgEx.dataPaths.getD (rngId.seq rngId.cursor % cfgEx.dataPaths.length) "")
            ++ "/" ++ toString 0 ++ ".png"
         image := (convertRGBA (cfgEx.corpus (cfgEx.emptySquares.getD
            (rngId.seq (rngId.cursor + 1) % cfgEx.emptySquares.length) ""))).data },
       { rngId with cursor := rngId.cursor + 2 }) :=
  (generateOne_draw_order cfgEx ["pieces/1", "pieces/2"] 0 rngId).1 (by decide)

/-! ### C7 -/

/-- In a duplicate-free choice list, every member is selected by exactly
one index: a uniform index draw induces the uniform distribution on the
list's elements. -/
theorem choice_fiber_card (l : List String) (hnd : l.Nodup) (p : String)
    (hp : p ∈ l) :
    (Finset.univ.filter (fun u : Fin l.length => l.get u = p)).card = 1 := by
  obtain ⟨i, hi⟩ := List.mem_iff_get.mp hp
  rw [Finset.card_eq_one]
  refine ⟨i, ?_⟩
  ext u
  simp only [Finset.mem_filter, Finset.mem_univ, true_and, Finset.mem_singleton]
  constructor
  · intro hu
    exact List.nodup_iff_injective_get.mp hnd (by rw [hu, hi])
  · intro hu
    rw [hu, hi]

/-- C7: the label-selection draw `rng.choice(DATA_PATHS)` is a uniform
draw over a 13-element class list — `"e"` (empty) plus the 12 piece
identities — so each of the 13 labels is selected with probability 1/13:
the list has length 13 and every class is hit by exactly one of the 13
selection indices. -/
theorem label_uniform (dataDir : String) (listing : List String)
    (hlen : listing.length = 12)
    (hnd : (DATA_PATHS dataDir listing).Nodup) :
    DATA_PATHS dataDir listing
      = (dataDir ++ "/" ++ "e")
          :: listing.map (fun s => dataDir ++ "/" ++ s.dropRight 4)
    ∧ (DATA_PATHS dataDir listing).length = 13
    ∧ (∀ r : Rng, (r.choice (DATA_PATHS dataDir listing)).1
        = (DATA_PATHS dataDir listing).getD
            (r.seq r.cursor % (DATA_PATHS dataDir listing).length) "")
    ∧ (∀ p ∈ DATA_PATHS dataDir listing,
        (Finset.univ.filter
          (fun u : Fin (DATA_PATHS dataDir listing).length =>
            (DATA_PATHS dataDir listing).get u = p)).card = 1) := by
  refine ⟨?_, ?_, fun r => rfl, fun p hp => choice_fiber_card _ hnd p hp⟩
  · simp [DATA_PATHS, PIECE_NAMES]
  · simp [DATA_PATHS, PIECE_NAMES, hlen]

/-- Witness for C7: the theorem applied to the concrete 12-file piece
directory listing. -/
theorem label_uniform_witness :
    DATA_PATHS "data" listing12
      = ("data" ++ "/" ++ "e")
          :: listing12.map (fun s => "data" ++ "/" ++ s.dropRight 4)
    ∧ (DATA_PATHS "data" listing12).length = 13
    ∧ (∀ r : Rng, (r.choice (DATA_PATHS "data" listing12)).1
        = (DATA_PATHS "data" listing12).getD
            (r.seq r.cursor % (DATA_PATHS "data" listing12).length) "")
    ∧ (∀ p ∈ DATA_PATHS "data" listing12,
        (Finset.univ.filter
          (fun u : Fin (DATA_PATHS "data" listing12).length =>
            (DATA_PATHS "data" listing12).get u = p)).card = 1) :=
  label_uniform "data" listing12 rfl (by decide)

/-! ### C8 -/

theorem muldiv255_full (v : Nat) (hv : v < 256) : muldiv255 v 255 = v := by
  unfold muldiv255
  omega

theorem muldiv255_zero (v : Nat) : muldiv255 v 0 = 0 := by
  simp [muldiv255]

/-- C8 counterexample: a sprite pixel with non-zero alpha 128 and value
255 pasted over a black background yields the blended value 128, not the
sprite's value — non-zero alpha does not overwrite. -/
theorem paste_partial_alpha_blends :
    spriteHalf 0 0 3 ≠ 0
    ∧ pasteMask bgBlack spriteHalf 0 0 0 = 128
    ∧ pasteMask bgBlack spriteHalf 0 0 0 ≠ spriteHalf 0 0 0 := by
  refine ⟨?_, ?_, ?_⟩ <;> decide

/-- C8 (amended): `img.paste(piece, mask=piece)` copies the sprite pixel
where the sprite's alpha is 255, keeps the background pixel where the
alpha is 0, and mixes the two proportionally at intermediate alpha; in
particular a fully-transparent sprite leaves the background
pixel-identical and a fully-opaque sprite replaces covered pixels
entirely. -/
theorem paste_alpha_semantics (bg sp : Nat → Nat → Nat → Nat) (r c ch : Nat)
    (hbg : bg r c ch < 256) (hsp : sp r c ch < 256) :
    (sp r c 3 = 255 → pasteMask bg sp r c ch = sp r c ch)
    ∧ (sp r c 3 = 0 → pasteMask bg sp r c ch = bg r c ch)
    ∧ pasteMask bg sp r c ch
        = muldiv255 (bg r c ch) (255 - sp r c 3) + muldiv255 (sp r c ch) (sp r c 3) := by
  refine ⟨?_, ?_, rfl⟩
  · intro h
    simp [pasteMask, blendChannel, h, muldiv255_zero, muldiv255_full _ hsp]
  · intro h
    simp [pasteMask, blendChannel, h, muldiv255_zero, muldiv255_full _ hbg]

/-- Witness for C8 (amended): the theorem applied to the black background
and the half-alpha sprite at pixel (0,0), channel 0. -/
theorem paste_alpha_semantics_witness :
    (spriteHalf 0 0 3 = 255 → pasteMask bgBlack spriteHalf 0 0 0 = spriteHalf 0 0 0)
    ∧ (spriteHalf 0 0 3 = 0 → pasteMask bgBlack spriteHalf 0 0 0 = bgBlack 0 0 0)
    ∧ pasteMask bgBlack spriteHalf 0 0 0
        = muldiv255 (bgBlack 0 0 0) (255 - spriteHalf 0 0 3)
            + muldiv255 (spriteHalf 0 0 0) (spriteHalf 0 0 3) :=
  paste_alpha_semantics bgBlack spriteHalf 0 0 0 (by decide) (by decide)

/-! ### Loop lemmas -/

theorem generateOne_cursor_ge (cfg : Config) (ps : List String) (i : Nat)
    (r : Rng) : r.cursor + 2 ≤ (generateOne cfg ps i r).2.cursor := by
  simp only [generateOne, Rng.choice]
  split <;> simp

theorem genLoop_cursor_ge (cfg : Config) (ps : List String) :
    ∀ fuel i r, r.cursor + 2 * fuel ≤ (genLoop cfg ps i fuel r).2.cursor := by
  intro fuel
  induction fuel with
  | zero => intro i r; simp [genLoop]
  | succ fuel ih =>
      intro i r
      have h1 := generateOne_cursor_ge cfg ps i r
      have h2 := ih (i + 1) (generateOne cfg ps i r).2
      simp only [genLoop]
      omega

theorem genLoop_length (cfg : Config) (ps : List String) :
    ∀ fuel i r, (genLoop cfg ps i fuel r).1.length = fuel := by
  intro fuel
  induction fuel with
  | zero => intro i r; simp [genLoop]
  | succ fuel ih =>
      intro i r
      simp only [genLoop, List.length_cons]
      rw [ih]

theorem genLoop_genRun (cfg : Config) (ps : List String) :
    ∀ fuel i r, GenRun cfg ps i fuel r (genLoop cfg ps i fuel r) := by
  intro fuel
  induction fuel with
  | zero => intro i r; exact .done i r
  | succ fuel ih =>
      intro i r
      exact GenRun.step i fuel r (generateOne cfg ps i r).1
        (generateOne cfg ps i r).2
        (genLoop cfg ps (i + 1) fuel (generateOne cfg ps i r).2).1
        (genLoop cfg ps (i + 1) fuel (generateOne cfg ps i r).2).2
        rfl (ih (i + 1) (generateOne cfg ps i r).2)

theorem genRun_det (cfg : Config) (ps : List String) :
    ∀ i n r out₁ out₂, GenRun cfg ps i n r out₁ → GenRun cfg ps i n r out₂ →
      out₁ = out₂ := by
  intro i n r out₁ out₂ h₁
  induction h₁ generalizing out₂ with
  | done i r =>
      intro h₂
      cases h₂
      rfl
  | step i fuel r w r' rest r'' hgen hrec ih =>
      intro h₂
      cases h₂ with
      | step _ _ _ w₂ r₂' rest₂ r₂'' hgen₂ hrec₂ =>
          rw [hgen] at hgen₂
          injection hgen₂ with hw hr
          subst hw
          subst hr
          have hpair := ih (rest₂, r₂'') hrec₂
          injection hpair with h₁ h₂
          rw [h₁, h₂]

/-! ### C2 -/

/-- C2: dataset generation is deterministic — any two full runs from a
fresh process start with the same seed stream, the same input corpus and
the same count and mode produce identical outputs: the same save paths in
the same order and the same pixel content in every written file, and the
same final generator state. -/
theorem datasetRun_deterministic (cfg : Config) (n : ℚ) (mode : String)
    (seed : Nat → Nat) (out₁ out₂ : List Write × Rng)
    (h₁ : DatasetRun cfg n mode seed out₁)
    (h₂ : DatasetRun cfg n mode seed out₂) :
    out₁ = out₂ := by
  cases h₁ with
  | mk a b _ hm₁ hg₁ =>
      cases h₂ with
      | mk a' b' _ hm₂ hg₂ =>
          rw [hm₁] at hm₂
          injection hm₂ with hab
          injection hab with ha hb
          subst ha
          subst hb
          exact genRun_det cfg _ 0 (pyInt n).toNat (initRng seed) _ _ hg₁ hg₂

/-- Witness for C2: two derivations of the same concrete run (count 1,
mode `"all"`, identity seed stream, concrete corpus) are forced to the
same output. -/
theorem datasetRun_deterministic_witness :
    genLoop cfgEx (pySlice (sortStrings cfgEx.pieceSetsGlob) 0 32) 0
        (pyInt 1).toNat (initRng rngId.seq)
      = genLoop cfgEx (pySlice (sortStrings cfgEx.pieceSetsGlob) 0 32) 0
          (pyInt 1).toNat (initRng rngId.seq) :=
  datasetRun_deterministic cfgEx 1 "all" rngId.seq _ _
    (DatasetRun.mk 0 32 _ rfl (genLoop_genRun _ _ _ 0 _))
    (DatasetRun.mk 0 32 _ rfl (genLoop_genRun _ _ _ 0 _))

/-! ### C9 -/

/-- C9: the generator is module-level state, so `generate_dataset` is not
a deterministic function of its arguments within a process: every
successful call with a positive count strictly advances the generator
cursor (the next call consumes a later segment of the draw stream), and
there are configurations where two successive calls with identical
arguments write different file sets; reproducibility holds only for the
whole-process call sequence from a fresh start. -/
theorem generator_state_persists (cfg : Config) (n : ℚ) (mode : String)
    (r : Rng) (a b : Nat) (hmode : modeSlice mode = .ok (a, b))
    (hn : 1 ≤ (pyInt n).toNat) :
    r.cursor < (runRng cfg n mode r).cursor
    ∧ ∃ cfg' n' mode' r',
        runWrites cfg' n' mode' r'
          ≠ runWrites cfg' n' mode' (runRng cfg' n' mode' r') := by
  constructor
  · have hcur := genLoop_cursor_ge cfg
      (pySlice (sortStrings cfg.pieceSetsGlob) a b) (pyInt n).toNat 0 r
    have hrun : runRng cfg n mode r
        = (genLoop cfg (pySlice (sortStrings cfg.pieceSetsGlob) a b) 0
            (pyInt n).toNat r).2 := by
      simp [runRng, generate_dataset, hmode]
    rw [hrun]
    omega
  · exact ⟨cfgEx, 1, "all", rngId, by decide⟩

/-- Witness for C9: the concrete configuration, count 1, mode `"all"` and
the fresh identity-stream generator. -/
theorem generator_state_persists_witness :
    rngId.cursor < (runRng cfgEx 1 "all" rngId).cursor
    ∧ ∃ cfg' n' mode' r',
        runWrites cfg' n' mode' r'
          ≠ runWrites cfg' n' mode' (runRng cfg' n' mode' r') :=
  generator_state_persists cfgEx 1 "all" rngId 0 32 rfl (by decide)

/-! ### C10 -/

/-- C10: for every valid mode, `generate_dataset` performs exactly
`max 0 (int n)` iterations, each writing one image: the rational count is
truncated toward zero by `int()`, a zero or negative truncation yields a
normal return with zero writes, and no positivity precondition is
enforced. -/
theorem generate_dataset_count (cfg : Config) (q : ℚ) (mode : String)
    (r : Rng) (a b : Nat) (hmode : modeSlice mode = .ok (a, b)) :
    ∃ ws r', generate_dataset cfg q mode r = .ok (ws, r')
      ∧ ws.length = (pyInt q).toNat
      ∧ ((pyInt q).toNat : ℤ) = max 0 (pyInt q)
      ∧ (pyInt q ≤ 0 → ws = []) := by
  refine ⟨(genLoop cfg (pySlice (sortStrings cfg.pieceSetsGlob) a b) 0
      (pyInt q).toNat r).1,
    (genLoop cfg (pySlice (sortStrings cfg.pieceSetsGlob) a b) 0
      (pyInt q).toNat r).2, ?_, ?_, ?_, ?_⟩
  · simp [generate_dataset, hmode]
  · exact genLoop_length cfg _ _ 0 r
  · omega
  · intro hq
    have h0 : (pyInt q).toNat = 0 := by omega
    rw [h0]
    rfl

/-- Witness for C10: a negative non-integer count `-7/2` with mode
`"train"` — `int(-7/2) = -3`, so the call returns normally with zero
writes. -/
theorem generate_dataset_count_witness :
    ∃ ws r', generate_dataset cfgEx (-7/2) "train" rngId = .ok (ws, r')
      ∧ ws.length = (pyInt (-7/2)).toNat
      ∧ ((pyInt (-7/2)).toNat : ℤ) = max 0 (pyInt (-7/2))
      ∧ (pyInt (-7/2) ≤ 0 → ws = []) :=
  generate_dataset_count cfgEx (-7/2) "train" rngId 0 16 rfl

end PieceImageGenerator
